import Mathlib

/-!
Verification development for the RigelEngine simulation core.

The definitions below are a shallow embedding of the game-logic code:
`src/game_logic/player/interaction_system.cpp`,
`src/game_logic/ingame_systems.cpp`, `src/game_logic/enemies/spike_ball.cpp`
and `src/game_logic/enemies/rigelatin_soldier.hpp`.  Parts of the program
whose sources are not part of this snapshot (the entityx entity store, the
physics system / collision checker, the player model and some component
headers) are modelled from the specification; each such definition carries a
doc comment starting with `Modelled from the spec:`.
-/

namespace Rigel

/-- 2D integer vector in tile units, mirroring `base::Vector`
(`base/spatial_types.hpp`, not part of this source snapshot; the layout is
fixed by its uses in `interaction_system.cpp`). -/
structure Vec where
  x : Int
  y : Int
deriving DecidableEq, Repr

instance : Add Vec := ⟨fun a b => ⟨a.x + b.x, a.y + b.y⟩⟩

instance : Sub Vec := ⟨fun a b => ⟨a.x - b.x, a.y - b.y⟩⟩

instance : Inhabited Vec := ⟨⟨0, 0⟩⟩

/-- Size of a rectangle in tiles (`base::Size`). -/
structure Size where
  width : Nat
  height : Nat
deriving DecidableEq, Repr

/-- Axis-aligned rectangle, top-left corner plus size (`base::Rect`). -/
structure Rect where
  topLeft : Vec
  size : Size
deriving DecidableEq, Repr

def Rect.left (r : Rect) : Int := r.topLeft.x

def Rect.top (r : Rect) : Int := r.topLeft.y

def Rect.right (r : Rect) : Int := r.topLeft.x + r.size.width - 1

def Rect.bottom (r : Rect) : Int := r.topLeft.y + r.size.height - 1

/-- Modelled from the spec: `base::Rect::intersects` (header absent from the
snapshot); standard inclusive axis-aligned box intersection on the
tile grid. -/
def Rect.intersects (a b : Rect) : Bool :=
  decide (a.left ≤ b.right) && decide (b.left ≤ a.right) &&
  decide (a.top ≤ b.bottom) && decide (b.top ≤ a.bottom)

/-- `engine::toWorldSpace` converts an entity-local bounding box to world
space.  The formula is fixed by the inlined copy of it in
`PlayerInteractionSystem::updateItemCollection` (`interaction_system.cpp`,
lines 249-251): the entity's `WorldPosition` is the bottom-left anchor. -/
def toWorldSpace (bbox : Rect) (entityPosition : Vec) : Rect :=
  { bbox with
      topLeft := bbox.topLeft +
        ⟨entityPosition.x, entityPosition.y - (bbox.size.height - 1)⟩ }

/-- Sound effect identifiers used by the embedded systems
(`data/sound_ids.hpp`). -/
inductive SoundId
  | ItemPickup
  | HealthPickup
  | WeaponPickup
  | Teleport
  | LettersCollectedCorrectly
  | DukeJumping
deriving DecidableEq, Repr

/-- Tutorial message identifiers referenced by the interaction system
(`data/tutorial_messages.hpp`). -/
inductive TutorialMessageId
  | FoundTeleporter
  | FoundForceField
  | FoundDoor
  | HintGlobeNeeded
  | LettersCollectedRightOrder
  | AccessCardNeeded
  | KeyNeeded
deriving DecidableEq, Repr

/-- In-game message text identifiers (`data/strings.hpp`); the hint-machine
hint text is identified by its episode/level pair. -/
inductive MessageId
  | FoundSpecialHintGlobe
  | FoundCloak
  | LettersCollectedWrongOrder
  | AccessGranted
  | OpeningDoor
  | LevelHintText (episode : Nat) (level : Nat)
deriving DecidableEq, Repr

/-- Inventory item kinds used by the interaction system
(`data/player_model.hpp`). -/
inductive InventoryItemType
  | RapidFire
  | SpecialHintGlobe
  | CloakingDevice
  | CircuitBoard
  | BlueKey
deriving DecidableEq, Repr

/-- Weapon kinds (`data/player_model.hpp`). -/
inductive WeaponType
  | Normal
  | Laser
  | Rocket
  | FlameThrower
deriving DecidableEq, Repr

/-- The collectable bonus letters (`data/player_model.hpp`). -/
inductive CollectableLetterType
  | N
  | U
  | K
  | E
  | M
deriving DecidableEq, Repr

/-- Result of `PlayerModel::addLetter` (`data/player_model.hpp`; declaration
visible through its use in `collectLetter`). -/
inductive LetterCollectionState
  | Incomplete
  | InOrder
  | WrongOrder
deriving DecidableEq, Repr

/-- `components::InteractableType`
(`game_logic/interactive/components.hpp`, fixed by the four cases handled in
`PlayerInteractionSystem::performInteraction`). -/
inductive InteractableType
  | Teleporter
  | ForceFieldCardReader
  | KeyHole
  | HintMachine
deriving DecidableEq, Repr

/-- Actor identifiers spawned by the interaction system
(`data/actor_ids.hpp`). -/
inductive ActorID
  | White_box_cloaking_device
  | Special_hint_globe_icon
deriving DecidableEq, Repr

/-- The floating score number kinds (`game_logic/collectable_components.hpp`,
absent from the snapshot; the five denominations are fixed by the sprite
actors of the original game). -/
inductive ScoreNumberType
  | S100
  | S500
  | S2000
  | S5000
  | S10000
deriving DecidableEq, Repr

/-- Modelled from the spec: `scoreNumberValue`
(`game_logic/collectable_components.hpp` is absent); each denomination's
numeric value. -/
def scoreNumberValue : ScoreNumberType → Nat
  | .S100 => 100
  | .S500 => 500
  | .S2000 => 2000
  | .S5000 => 5000
  | .S10000 => 10000

/-- Modelled from the spec: `ScoreNumberType_Items`
(`game_logic/collectable_components.hpp` is absent); the iteration order of
the denominations used by the greedy decomposition in `spawnScoreNumbers`,
largest first. -/
def ScoreNumberType_Items : List ScoreNumberType :=
  [.S10000, .S5000, .S2000, .S500, .S100]

/-- Tagged union for the collision-flag sides reported by `sweepMove`. -/
structure CollisionFlags where
  collidedLeft : Bool := false
  collidedRight : Bool := false
  collidedTop : Bool := false
  collidedBottom : Bool := false
deriving DecidableEq, Repr

/-- Events published on the event bus by the embedded systems. -/
inductive GameEvent
  | PlayerTeleported (position : Vec)
  | ExitReached (checkRadarDishes : Bool)
  | DoorOpened (door : Nat)
  | CollidedWithWorld (entity : Nat) (flags : CollisionFlags)
deriving DecidableEq, Repr

/-- Observable side effects of the interaction/item systems.  Calls into the
player model, the service provider and the entity factory are recorded as
effect values in call order. -/
inductive Effect
  | playSound (sound : SoundId)
  | giveScore (amount : Nat)
  | giveHealth (amount : Nat)
  | switchToWeapon (weapon : WeaponType)
  | giveItem (item : InventoryItemType)
  | removeItem (item : InventoryItemType)
  | spawnScoreNumber (numberType : ScoreNumberType) (position : Vec)
  | showMessage (message : MessageId)
  | showTutorialMessage (message : TutorialMessageId)
  | emitEvent (event : GameEvent)
  | createSprite (actor : ActorID) (position : Vec)
  | interactionAnimation
  | disableKeyCardSlot (entity : Nat)
  | disableNextForceField
  | disableKeyHole (entity : Nat)
  | rememberCloakPosition (position : Vec)
deriving DecidableEq, Repr

/-- `BASIC_LETTER_COLLECTION_SCORE` (`interaction_system.cpp`, line 49). -/
def BASIC_LETTER_COLLECTION_SCORE : Nat := 10100

/-- `CORRECT_LETTER_COLLECTION_SCORE` (`interaction_system.cpp`, line 50). -/
def CORRECT_LETTER_COLLECTION_SCORE : Nat := 100000

/-- `HINT_MACHINE_ACTIVATION_SCORE` (`interaction_system.cpp`, line 51). -/
def HINT_MACHINE_ACTIVATION_SCORE : Nat := 50000

/-- `PLAYER_TO_TELEPORTER_OFFSET` (`interaction_system.cpp`, line 53). -/
def PLAYER_TO_TELEPORTER_OFFSET : Vec := ⟨1, 0⟩

/-- `HINT_MACHINE_GLOBE_OFFSET` (`interaction_system.cpp`, line 54). -/
def HINT_MACHINE_GLOBE_OFFSET : Vec := ⟨1, -4⟩

/-- The greedy denomination decomposition inside `spawnScoreNumbers`
(`interaction_system.cpp`, lines 62-68): for each denomination in
`ScoreNumberType_Items` order, push the number while the remaining score
covers its value. -/
def scoreNumbersFor (score : Nat) : List ScoreNumberType :=
  (ScoreNumberType_Items.foldl
    (fun acc numberType =>
      let value := scoreNumberValue numberType
      let count := acc.1 / value
      (acc.1 - count * value, acc.2 ++ List.replicate count numberType))
    (score, [])).2

/-- `spawnScoreNumbers` (`interaction_system.cpp`, lines 57-80): spawn one
floating score number per denomination produced by the greedy decomposition,
stacked upwards (the i-th number at `position - (0, size - 1 - i)`). -/
def spawnScoreNumbers (position : Vec) (score : Nat) : List Effect :=
  let numbers := scoreNumbersFor score
  if numbers.isEmpty then []
  else
    numbers.enum.map fun p =>
      Effect.spawnScoreNumber p.2
        (position - ⟨0, (numbers.length : Int) - 1 - (p.1 : Int)⟩)

/-- `X_OFFSETS` inside `spawnScoreNumbersForLetterCollectionBonus`
(`interaction_system.cpp`, line 87). -/
def X_OFFSETS : List Int := [-3, 0, 3, 0]

/-- `spawnScoreNumbersForLetterCollectionBonus`
(`interaction_system.cpp`, lines 83-94): ten 10000-point numbers at fixed
offsets. -/
def spawnScoreNumbersForLetterCollectionBonus (position : Vec) : List Effect :=
  (List.range 10).map fun i =>
    Effect.spawnScoreNumber ScoreNumberType.S10000
      (position + ⟨X_OFFSETS.getD (i % 4) 0, -(i : Int)⟩)

/-- `PlayerInteractionSystem::collectLetter`
(`interaction_system.cpp`, lines 446-476), as a function of the
`PlayerModel::addLetter` result.  The `InOrder` branch awards the
100000-point bonus; every other result awards
`BASIC_LETTER_COLLECTION_SCORE` and spawns a single floating 100. -/
def collectLetter
    (collectionState : LetterCollectionState) (position : Vec) :
    List Effect :=
  if collectionState = LetterCollectionState.InOrder then
    [Effect.playSound SoundId.LettersCollectedCorrectly,
     Effect.giveScore CORRECT_LETTER_COLLECTION_SCORE]
    ++ spawnScoreNumbersForLetterCollectionBonus position
    ++ [Effect.showTutorialMessage TutorialMessageId.LettersCollectedRightOrder]
  else
    [Effect.playSound SoundId.ItemPickup,
     Effect.giveScore BASIC_LETTER_COLLECTION_SCORE,
     Effect.spawnScoreNumber ScoreNumberType.S100 position]
    ++ (if collectionState = LetterCollectionState.WrongOrder then
          [Effect.showMessage MessageId.LettersCollectedWrongOrder]
        else [])

/-- The score amounts awarded by an effect list, in order. -/
def scoreAmounts (effects : List Effect) : List Nat :=
  effects.filterMap fun eff =>
    match eff with
    | Effect.giveScore amount => some amount
    | _ => none

/-- The floating score numbers spawned by an effect list, in order. -/
def spawnedScoreNumbers (effects : List Effect) : List (ScoreNumberType × Vec) :=
  effects.filterMap fun eff =>
    match eff with
    | Effect.spawnScoreNumber t p => some (t, p)
    | _ => none

/-- Claim C1: for every bonus letter whose `addLetter` result is not
`InOrder`, `collectLetter` awards exactly 10100 points
(`BASIC_LETTER_COLLECTION_SCORE`) in a single `giveScore` call, while
spawning exactly one floating score number, of denomination 100 — the
10000-point set bonus is folded into every single out-of-order letter
rather than granted once per completed set. -/
theorem collectLetter_out_of_order_awards_10100
    (collectionState : LetterCollectionState) (position : Vec)
    (h : collectionState ≠ LetterCollectionState.InOrder) :
    scoreAmounts (collectLetter collectionState position) =
      [BASIC_LETTER_COLLECTION_SCORE] ∧
    BASIC_LETTER_COLLECTION_SCORE = 10100 ∧
    spawnedScoreNumbers (collectLetter collectionState position) =
      [(ScoreNumberType.S100, position)] ∧
    scoreNumberValue ScoreNumberType.S100 = 100 := by
  cases collectionState with
  | InOrder => exact absurd rfl h
  | Incomplete =>
      refine ⟨?_, rfl, ?_, rfl⟩ <;>
        simp [collectLetter, scoreAmounts, spawnedScoreNumbers,
          BASIC_LETTER_COLLECTION_SCORE]
  | WrongOrder =>
      refine ⟨?_, rfl, ?_, rfl⟩ <;>
        simp [collectLetter, scoreAmounts, spawnedScoreNumbers,
          BASIC_LETTER_COLLECTION_SCORE]

/-- Witness for claim C1: concrete evaluation at the `WrongOrder` state. -/
theorem collectLetter_out_of_order_awards_10100_witness :
    LetterCollectionState.WrongOrder ≠ LetterCollectionState.InOrder ∧
    scoreAmounts (collectLetter LetterCollectionState.WrongOrder ⟨4, 7⟩) =
      [BASIC_LETTER_COLLECTION_SCORE] :=
  ⟨by decide,
   (collectLetter_out_of_order_awards_10100
      LetterCollectionState.WrongOrder ⟨4, 7⟩ (by decide)).1⟩

/-- `MovingBody` component (`engine/physical_components.hpp`, absent from the
snapshot; field set fixed by the spec §3 and its uses in `spike_ball.cpp`):
velocity, gravity-affected flag, collision-ignoring flag.  Velocity is kept
at tile granularity in this embedding. -/
structure MovingBody where
  velocity : Vec
  gravityAffected : Bool
  ignoresCollisions : Bool := false
deriving DecidableEq, Repr

/-- Modelled from the spec: `MovementSequence`
(`engine/physical_components.hpp` is absent); an ordered sequence of
relative-position deltas played back one per tick, optionally looping
(§3).  `deltas` is the remaining playback, `initial` the full sequence used
to restart a looping playback. -/
structure MovementSequence where
  initial : List Vec
  deltas : List Vec
  repeats : Bool
deriving DecidableEq, Repr

/-- Builds a freshly assigned `MovementSequence` starting at its first
delta. -/
def mkMovementSequence (l : List Vec) (repeats : Bool) : MovementSequence :=
  ⟨l, l, repeats⟩

/-- `components::SpikeBall` state (`game_logic/enemies/spike_ball.hpp`;
the single `mJumpBackCooldown` counter is fixed by its uses in
`spike_ball.cpp`). -/
structure SpikeBallComp where
  mJumpBackCooldown : Nat := 0
deriving DecidableEq, Repr

/-- `ActorTag` kinds used by the interaction system
(`game_logic/actor_tag.hpp`). -/
inductive ActorTag
  | Door
deriving DecidableEq, Repr

/-- `CollectableItem` component (`game_logic/collectable_components.hpp`,
absent from the snapshot; the field set is fixed by its uses in
`PlayerInteractionSystem::updateItemCollection`). -/
structure CollectableItem where
  mGivenScore : Option Nat := none
  mGivenScoreAtFullHealth : Option Nat := none
  mSpawnScoreNumbers : Bool := true
  mGivenHealth : Option Nat := none
  mGivenWeapon : Option WeaponType := none
  mGivenItem : Option InventoryItemType := none
  mShownTutorialMessage : Option TutorialMessageId := none
  mGivenCollectableLetter : Option CollectableLetterType := none
deriving DecidableEq, Repr

/-- Modelled from the spec: an entity of the entityx entity store (the
entityx library is not part of the snapshot).  An entity is an id plus an
open set of optional components (§3); `alive` is false from the instant
`destroy` is called, which excludes the entity from every subsequent
`each` iteration and makes `has<T>` return false (§4.1, §5). -/
structure Ent where
  eid : Nat
  alive : Bool := true
  active : Bool := false
  activeIsOnScreen : Bool := false
  position : Option Vec := none
  bbox : Option Rect := none
  movingBody : Option MovingBody := none
  sequence : Option MovementSequence := none
  interactable : Option InteractableType := none
  collectable : Option CollectableItem := none
  spikeBall : Option SpikeBallComp := none
  actorTag : Option ActorTag := none
  spawnedAfterPhase1 : Bool := false
deriving DecidableEq, Repr

/-- Modelled from the spec: `has<T>` on an entity handle (§4.1); looking up
a destroyed entity returns false rather than faulting. -/
def hasCollectable (es : List Ent) (eid : Nat) : Bool :=
  match es.find? (fun e => e.eid = eid) with
  | some e => e.alive && e.collectable.isSome
  | none => false

/-- Modelled from the spec: the entities visited by an `each`-style
traversal — live entities, in creation (list) order (§4.1). -/
def eachLive (es : List Ent) : List Ent := es.filter (fun e => e.alive)

/-- The player-side state read by `updatePlayerInteraction`
(`mpPlayer` / `mpPlayerModel` queries and the per-frame input). -/
structure PlayerCtx where
  isDead : Bool
  hitBox : Rect
  orientedPosition : Vec
  isInRegularState : Bool
  hasHintGlobe : Bool
  hasCircuitBoard : Bool
  hasBlueKey : Bool
  interactTriggered : Bool
  levelHint : Option MessageId := none
deriving DecidableEq, Repr

/-- `tutorialFor` (`interaction_system.cpp`, lines 96-114). -/
def tutorialFor : InteractableType → TutorialMessageId
  | .Teleporter => .FoundTeleporter
  | .ForceFieldCardReader => .FoundForceField
  | .KeyHole => .FoundDoor
  | .HintMachine => .HintGlobeNeeded

/-- The `isInRange` lambda inside `updatePlayerInteraction`
(`interaction_system.cpp`, lines 184-202): bounds intersection, plus the
extra alignment conditions for teleporters. -/
def isInRange (p : PlayerCtx) (objectBounds : Rect)
    (itype : InteractableType) : Bool :=
  if !(p.hitBox.intersects objectBounds) then false
  else if itype = InteractableType.Teleporter then
    decide (objectBounds.left ≤ p.orientedPosition.x) &&
    decide (objectBounds.left + 3 ≥ p.orientedPosition.x) &&
    decide (objectBounds.bottom = p.orientedPosition.y) &&
    p.isInRegularState
  else true

/-- The per-entity condition of the loop inside
`findTeleporterTargetPosition` (`interaction_system.cpp`, lines 125-132):
a live entity with `Interactable{Teleporter}` and `WorldPosition`, other
than the source teleporter, yields its position. -/
def teleporterTargetOf (sourceTeleporter : Nat) (e : Ent) : Option Vec :=
  match e.position with
  | some p =>
      if e.alive ∧ e.interactable = some InteractableType.Teleporter ∧
          e.eid ≠ sourceTeleporter then some p
      else none
  | none => none

/-- The target positions scanned by `findTeleporterTargetPosition`, in
entity iteration order. -/
def teleporterTargets (es : List Ent) (sourceTeleporter : Nat) : List Vec :=
  es.filterMap (teleporterTargetOf sourceTeleporter)

/-- `findTeleporterTargetPosition` (`interaction_system.cpp`, lines
117-141): a fold over the store keeping the last matching teleporter, whose
position plus `PLAYER_TO_TELEPORTER_OFFSET` is the result.  (The source
keeps the matching entity and reads its `WorldPosition` after the loop;
positions do not change during the loop, so keeping the position is the
same.) -/
def findTeleporterTargetPosition
    (es : List Ent) (sourceTeleporter : Nat) : Option Vec :=
  (es.foldl
    (fun acc e => (teleporterTargetOf sourceTeleporter e).or acc)
    none).map (· + PLAYER_TO_TELEPORTER_OFFSET)

/-- `PlayerInteractionSystem::activateTeleporter`
(`interaction_system.cpp`, lines 361-378). -/
def activateTeleporter (es : List Ent) (interactable : Nat) : List Effect :=
  Effect.playSound SoundId.Teleport ::
  (match findTeleporterTargetPosition es interactable with
   | some target => [Effect.emitEvent (GameEvent.PlayerTeleported target)]
   | none => [Effect.emitEvent (GameEvent.ExitReached false)])

/-- `PlayerInteractionSystem::activateCardReader`
(`interaction_system.cpp`, lines 381-398). -/
def activateCardReader (p : PlayerCtx) (entity : Nat) : List Effect :=
  if p.hasCircuitBoard then
    [Effect.removeItem InventoryItemType.CircuitBoard,
     Effect.disableKeyCardSlot entity,
     Effect.disableNextForceField,
     Effect.interactionAnimation,
     Effect.showMessage MessageId.AccessGranted]
  else
    [Effect.showTutorialMessage TutorialMessageId.AccessCardNeeded]

/-- `findFirstMatchInSpawnOrder` for the door tag
(`game_logic/actor_tag.hpp` helper used by `activateKeyHole`). -/
def findFirstDoor (es : List Ent) : Option Nat :=
  (es.find? fun e => e.alive && e.actorTag = some ActorTag.Door).map
    (fun e => e.eid)

/-- `PlayerInteractionSystem::activateKeyHole`
(`interaction_system.cpp`, lines 401-419). -/
def activateKeyHole (p : PlayerCtx) (es : List Ent) (entity : Nat) :
    List Effect :=
  if p.hasBlueKey then
    [Effect.removeItem InventoryItemType.BlueKey,
     Effect.disableKeyHole entity]
    ++ (match findFirstDoor es with
        | some door => [Effect.emitEvent (GameEvent.DoorOpened door)]
        | none => [])
    ++ [Effect.interactionAnimation,
        Effect.showMessage MessageId.OpeningDoor]
  else
    [Effect.showTutorialMessage TutorialMessageId.KeyNeeded]

/-- `PlayerInteractionSystem::activateHintMachine`
(`interaction_system.cpp`, lines 422-443): unconditionally removes the hint
globe from the inventory, awards `HINT_MACHINE_ACTIVATION_SCORE`, spawns the
matching score numbers, shows the level hint when one exists, strips the
machine's `Interactable` and `BoundingBox` components and spawns the globe
icon sprite. -/
def activateHintMachine (machinePosition : Vec) (p : PlayerCtx) (e : Ent) :
    Ent × List Effect :=
  ({ e with interactable := none, bbox := none },
   [Effect.removeItem InventoryItemType.SpecialHintGlobe,
    Effect.giveScore HINT_MACHINE_ACTIVATION_SCORE,
    Effect.playSound SoundId.ItemPickup]
   ++ spawnScoreNumbers machinePosition HINT_MACHINE_ACTIVATION_SCORE
   ++ (match p.levelHint with
       | some hint => [Effect.showMessage hint]
       | none => [])
   ++ [Effect.createSprite ActorID.Special_hint_globe_icon
         (machinePosition + HINT_MACHINE_GLOBE_OFFSET)])

/-- `PlayerInteractionSystem::performInteraction`
(`interaction_system.cpp`, lines 336-358): dispatch on the interactable
type; returns the possibly-updated interactable entity and the recorded
effects. -/
def performInteraction (p : PlayerCtx) (es : List Ent) (e : Ent)
    (itype : InteractableType) (pos : Vec) : Ent × List Effect :=
  match itype with
  | .Teleporter => (e, activateTeleporter es e.eid)
  | .ForceFieldCardReader => (e, activateCardReader p e.eid)
  | .KeyHole => (e, activateKeyHole p es e.eid)
  | .HintMachine => activateHintMachine pos p e

/-- The component view taken by
`each<Interactable, WorldPosition, BoundingBox>`: some iff the entity is
live and carries all three components. -/
def visitedInteractable (e : Ent) : Option (InteractableType × Vec × Rect) :=
  match e.alive, e.interactable, e.position, e.bbox with
  | true, some itype, some pos, some bbox => some (itype, pos, bbox)
  | _, _, _, _ => none

/-- Whether `updatePlayerInteraction` would consider the entity in range:
it is visited by the `each` traversal and passes `isInRange`. -/
def inRangeInteractable (p : PlayerCtx) (e : Ent) : Bool :=
  match visitedInteractable e with
  | some (itype, pos, bbox) => isInRange p (toWorldSpace bbox pos) itype
  | none => false

/-- Result of one `updatePlayerInteraction` pass: the updated store, the
entities passed to `performInteraction` (with their types, in call order)
and the recorded effects. -/
structure InteractionResult where
  entities : List Ent
  performedOn : List (Nat × InteractableType)
  effects : List Effect
deriving DecidableEq, Repr

/-- The `each` loop body of `updatePlayerInteraction`
(`interaction_system.cpp`, lines 205-231), with the mutable
`performedInteraction` flag made explicit: once an interaction was
performed, every later entity is skipped; an in-range entity triggers
`performInteraction` when the interact input was pressed (or, for the hint
machine, when the player carries the hint globe), and otherwise shows the
type's tutorial message. -/
def interactionLoop (p : PlayerCtx) (fullEs : List Ent) :
    Bool → List Ent → InteractionResult
  | _, [] => ⟨[], [], []⟩
  | true, e :: rest =>
      let r := interactionLoop p fullEs true rest
      ⟨e :: r.entities, r.performedOn, r.effects⟩
  | false, e :: rest =>
      match visitedInteractable e with
      | some (itype, pos, bbox) =>
        let objectBounds := toWorldSpace bbox pos
        if isInRange p objectBounds itype then
          if p.interactTriggered ||
              (itype = InteractableType.HintMachine && p.hasHintGlobe) then
            let activated := performInteraction p fullEs e itype pos
            let r := interactionLoop p fullEs true rest
            ⟨activated.1 :: r.entities, (e.eid, itype) :: r.performedOn,
             activated.2 ++ r.effects⟩
          else
            let r := interactionLoop p fullEs false rest
            ⟨e :: r.entities, r.performedOn,
             Effect.showTutorialMessage (tutorialFor itype) :: r.effects⟩
        else
          let r := interactionLoop p fullEs false rest
          ⟨e :: r.entities, r.performedOn, r.effects⟩
      | none =>
        let r := interactionLoop p fullEs false rest
        ⟨e :: r.entities, r.performedOn, r.effects⟩

/-- `PlayerInteractionSystem::updatePlayerInteraction`
(`interaction_system.cpp`, lines 173-232): a dead player interacts with
nothing; otherwise run the `each` pass. -/
def updatePlayerInteraction (p : PlayerCtx) (es : List Ent) :
    InteractionResult :=
  if p.isDead then ⟨es, [], []⟩
  else interactionLoop p es false es

/-- The events emitted by an effect list, in order. -/
def emittedEvents (effects : List Effect) : List GameEvent :=
  effects.filterMap fun eff =>
    match eff with
    | Effect.emitEvent ev => some ev
    | _ => none

lemma getLast?_cons_match {α : Type} (p : α) (xs : List α) :
    (p :: xs).getLast? =
      match xs.getLast? with
      | some q => some q
      | none => some p := by
  induction xs generalizing p with
  | nil => simp
  | cons y ys ih =>
      rw [List.getLast?_cons_cons, ih y]
      cases h : ys.getLast? <;> simp [h]

lemma foldl_keepLast {α β : Type} (g : α → Option β) :
    ∀ (l : List α) (acc : Option β),
      l.foldl (fun a e => (g e).or a) acc =
        ((l.filterMap g).getLast?).or acc := by
  intro l
  induction l with
  | nil => intro acc; simp
  | cons e l ih =>
      intro acc
      rw [List.foldl_cons, ih]
      cases h : g e with
      | none => simp [List.filterMap_cons, h]
      | some p =>
          rw [List.filterMap_cons, h, getLast?_cons_match]
          cases hl : (l.filterMap g).getLast? <;> simp [hl]

/-- Claim C8: activating a teleporter emits exactly one event: when no other
live entity with an `Interactable{Teleporter}` component exists, the level
is ended via `ExitReached{false}`; otherwise `PlayerTeleported` is emitted
with the position of the last such teleporter in entity iteration order
plus the fixed `PLAYER_TO_TELEPORTER_OFFSET = (1, 0)`. -/
theorem activateTeleporter_emits_one_event (es : List Ent)
    (sourceTeleporter : Nat) :
    emittedEvents (activateTeleporter es sourceTeleporter) =
      [match (teleporterTargets es sourceTeleporter).getLast? with
       | some p =>
           GameEvent.PlayerTeleported (p + PLAYER_TO_TELEPORTER_OFFSET)
       | none => GameEvent.ExitReached false] := by
  unfold activateTeleporter findTeleporterTargetPosition
  rw [foldl_keepLast]
  cases h : (teleporterTargets es sourceTeleporter).getLast? with
  | none =>
      rw [teleporterTargets] at h
      simp [h, emittedEvents]
  | some p =>
      rw [teleporterTargets] at h
      simp [h, emittedEvents]

lemma interactionLoop_after_performed (p : PlayerCtx) (fullEs : List Ent) :
    ∀ rest : List Ent,
      interactionLoop p fullEs true rest = ⟨rest, [], []⟩ := by
  intro rest
  induction rest with
  | nil => rfl
  | cons e l ih => simp [interactionLoop, ih]

lemma interactionLoop_at_most_one (p : PlayerCtx) (fullEs : List Ent) :
    ∀ (l : List Ent) (performed : Bool),
      (interactionLoop p fullEs performed l).performedOn.length ≤ 1 := by
  intro l
  induction l with
  | nil => intro performed; cases performed <;> simp [interactionLoop]
  | cons e rest ih =>
      intro performed
      cases performed with
      | true => simp [interactionLoop, interactionLoop_after_performed]
      | false =>
          simp only [interactionLoop]
          cases hv : visitedInteractable e with
          | none => simp only [hv]; exact ih false
          | some v =>
              obtain ⟨itype, pos, bbox⟩ := v
              simp only [hv]
              split
              · split
                · simp [interactionLoop_after_performed]
                · simpa using ih false
              · exact ih false

/-- Claim C10: a single `updatePlayerInteraction` pass activates at most
one interactable (`performInteraction` is called at most once); once the
first in-range interactable has been activated, every remaining entity of
the pass is skipped unchanged with no further activation or effect; and a
dead player performs no interaction at all. -/
theorem updatePlayerInteraction_at_most_one (p : PlayerCtx)
    (es : List Ent) :
    (updatePlayerInteraction p es).performedOn.length ≤ 1 ∧
    (p.isDead = true →
      updatePlayerInteraction p es = ⟨es, [], []⟩) ∧
    (∀ rest : List Ent,
      interactionLoop p es true rest = ⟨rest, [], []⟩) := by
  refine ⟨?_, ?_, interactionLoop_after_performed p es⟩
  · unfold updatePlayerInteraction
    split
    · simp
    · exact interactionLoop_at_most_one p es es false
  · intro hd
    simp [updatePlayerInteraction, hd]

/-- Witness for claim C10: concrete evaluation with a dead player and one
in-range interactable. -/
theorem updatePlayerInteraction_at_most_one_witness :
    (updatePlayerInteraction
        { isDead := true, hitBox := ⟨⟨2, 2⟩, ⟨3, 3⟩⟩,
          orientedPosition := ⟨0, 0⟩, isInRegularState := true,
          hasHintGlobe := true, hasCircuitBoard := false,
          hasBlueKey := false, interactTriggered := true }
        [{ eid := 1, position := some ⟨3, 3⟩, bbox := some ⟨⟨0, 0⟩, ⟨2, 2⟩⟩,
           interactable := some InteractableType.HintMachine }]).performedOn.length ≤ 1 ∧
    updatePlayerInteraction
        { isDead := true, hitBox := ⟨⟨2, 2⟩, ⟨3, 3⟩⟩,
          orientedPosition := ⟨0, 0⟩, isInRegularState := true,
          hasHintGlobe := true, hasCircuitBoard := false,
          hasBlueKey := false, interactTriggered := true }
        [{ eid := 1, position := some ⟨3, 3⟩, bbox := some ⟨⟨0, 0⟩, ⟨2, 2⟩⟩,
           interactable := some InteractableType.HintMachine }] =
      ⟨[{ eid := 1, position := some ⟨3, 3⟩, bbox := some ⟨⟨0, 0⟩, ⟨2, 2⟩⟩,
          interactable := some InteractableType.HintMachine }], [], []⟩ :=
  ⟨(updatePlayerInteraction_at_most_one _ _).1,
   (updatePlayerInteraction_at_most_one _ _).2.1 rfl⟩

lemma interactionLoop_skips_out_of_range (p : PlayerCtx) (fullEs : List Ent)
    (l : List Ent) :
    ∀ pre : List Ent, (∀ e ∈ pre, inRangeInteractable p e = false) →
      interactionLoop p fullEs false (pre ++ l) =
        ⟨pre ++ (interactionLoop p fullEs false l).entities,
         (interactionLoop p fullEs false l).performedOn,
         (interactionLoop p fullEs false l).effects⟩ := by
  intro pre
  induction pre with
  | nil => intro _; simp
  | cons e rest ih =>
      intro h
      have he : inRangeInteractable p e = false := h e (by simp)
      have hrest : ∀ x ∈ rest, inRangeInteractable p x = false := by
        intro x hx; exact h x (by simp [hx])
      simp only [List.cons_append, interactionLoop]
      cases hv : visitedInteractable e with
      | none =>
          simp only [hv, List.append_eq]
          rw [ih hrest]
      | some v =>
          obtain ⟨itype, pos, bbox⟩ := v
          have hr : isInRange p (toWorldSpace bbox pos) itype = false := by
            have := he
            rw [inRangeInteractable, hv] at this
            exact this
          simp only [hv, hr, Bool.false_eq_true, if_false, List.append_eq]
          rw [ih hrest]

lemma performInteraction_no_hint_globe_tutorial (p : PlayerCtx)
    (fullEs : List Ent) (e : Ent) (itype : InteractableType) (pos : Vec) :
    Effect.showTutorialMessage TutorialMessageId.HintGlobeNeeded ∉
      (performInteraction p fullEs e itype pos).2 := by
  cases itype with
  | Teleporter =>
      simp only [performInteraction, activateTeleporter]
      cases findTeleporterTargetPosition fullEs e.eid <;> simp
  | ForceFieldCardReader =>
      simp only [performInteraction, activateCardReader]
      split <;> simp
  | KeyHole =>
      simp only [performInteraction, activateKeyHole]
      split
      · cases findFirstDoor fullEs <;> simp
      · simp
  | HintMachine =>
      simp only [performInteraction, activateHintMachine]
      cases p.levelHint <;> simp [spawnScoreNumbers]

lemma interactionLoop_no_hint_globe_tutorial (p : PlayerCtx)
    (fullEs : List Ent) (hw : p.interactTriggered = true) :
    ∀ (l : List Ent) (performed : Bool),
      Effect.showTutorialMessage TutorialMessageId.HintGlobeNeeded ∉
        (interactionLoop p fullEs performed l).effects := by
  intro l
  induction l with
  | nil => intro performed; cases performed <;> simp [interactionLoop]
  | cons e rest ih =>
      intro performed
      cases performed with
      | true => simp only [interactionLoop]; exact ih true
      | false =>
          simp only [interactionLoop]
          cases hv : visitedInteractable e with
          | none => simp only [hv]; exact ih false
          | some v =>
              obtain ⟨itype, pos, bbox⟩ := v
              simp only [hv, hw, Bool.true_or, if_true]
              split
              · simp only [List.mem_append, not_or]
                exact ⟨performInteraction_no_hint_globe_tutorial p fullEs
                  e itype pos, ih true⟩
              · exact ih false

/-- Claim C9: pressing interact while the player's hit box intersects a
hint machine's bounds runs `activateHintMachine` regardless of whether the
player owns the special hint globe: exactly that machine is activated, the
recorded effects are those of `activateHintMachine` — which award
`HINT_MACHINE_ACTIVATION_SCORE = 50000` points and spawn floating score
numbers whose values sum to 50000 — and the machine loses its
`Interactable` and `BoundingBox` components, so it can never be activated
again.  The `HintGlobeNeeded` tutorial message is never shown on a pass in
which interaction was triggered. -/
theorem updatePlayerInteraction_hint_machine_without_globe
    (p : PlayerCtx) (pre post : List Ent) (m : Ent) (pos : Vec) (bbox : Rect)
    (hdead : p.isDead = false)
    (hwant : p.interactTriggered = true)
    (halive : m.alive = true)
    (hint : m.interactable = some InteractableType.HintMachine)
    (hpos : m.position = some pos)
    (hbox : m.bbox = some bbox)
    (hrange : p.hitBox.intersects (toWorldSpace bbox pos) = true)
    (hpre : ∀ e ∈ pre, inRangeInteractable p e = false) :
    updatePlayerInteraction p (pre ++ m :: post) =
      ⟨pre ++ ({ m with interactable := none, bbox := none } :: post),
       [(m.eid, InteractableType.HintMachine)],
       (activateHintMachine pos p m).2⟩ ∧
    Effect.giveScore HINT_MACHINE_ACTIVATION_SCORE ∈
      (activateHintMachine pos p m).2 ∧
    ((spawnedScoreNumbers (activateHintMachine pos p m).2).map
        (fun q => scoreNumberValue q.1)).sum = HINT_MACHINE_ACTIVATION_SCORE ∧
    (∀ (p2 : PlayerCtx) (es2 : List Ent), p2.interactTriggered = true →
      Effect.showTutorialMessage TutorialMessageId.HintGlobeNeeded ∉
        (updatePlayerInteraction p2 es2).effects) := by
  refine ⟨?_, ?_, ?_, ?_⟩
  · rw [updatePlayerInteraction, if_neg (by simp [hdead]),
      interactionLoop_skips_out_of_range p _ _ pre hpre]
    have hv : visitedInteractable m =
        some (InteractableType.HintMachine, pos, bbox) := by
      rw [visitedInteractable, halive, hint, hpos, hbox]
    have hr : isInRange p (toWorldSpace bbox pos)
        InteractableType.HintMachine = true := by
      rw [isInRange, hrange]
      simp
    simp only [interactionLoop, hv, hr, hwant, Bool.true_or, if_true,
      interactionLoop_after_performed]
    simp [performInteraction, activateHintMachine]
  · cases hl : p.levelHint <;>
      simp [activateHintMachine, hl]
  · have hmap :
        (([(ScoreNumberType.S10000, pos - ⟨0, 4⟩),
           (ScoreNumberType.S10000, pos - ⟨0, 3⟩),
           (ScoreNumberType.S10000, pos - ⟨0, 2⟩),
           (ScoreNumberType.S10000, pos - ⟨0, 1⟩),
           (ScoreNumberType.S10000, pos - ⟨0, 0⟩)] :
            List (ScoreNumberType × Vec)).map
          (fun q => scoreNumberValue q.1)) =
        [10000, 10000, 10000, 10000, 10000] := rfl
    cases hl : p.levelHint with
    | none =>
        have h3 : spawnedScoreNumbers (activateHintMachine pos p m).2 =
            [(ScoreNumberType.S10000, pos - ⟨0, 4⟩),
             (ScoreNumberType.S10000, pos - ⟨0, 3⟩),
             (ScoreNumberType.S10000, pos - ⟨0, 2⟩),
             (ScoreNumberType.S10000, pos - ⟨0, 1⟩),
             (ScoreNumberType.S10000, pos - ⟨0, 0⟩)] := by
          simp only [activateHintMachine, hl]
          rfl
        rw [h3, hmap]
        norm_num [HINT_MACHINE_ACTIVATION_SCORE]
    | some hint =>
        have h3 : spawnedScoreNumbers (activateHintMachine pos p m).2 =
            [(ScoreNumberType.S10000, pos - ⟨0, 4⟩),
             (ScoreNumberType.S10000, pos - ⟨0, 3⟩),
             (ScoreNumberType.S10000, pos - ⟨0, 2⟩),
             (ScoreNumberType.S10000, pos - ⟨0, 1⟩),
             (ScoreNumberType.S10000, pos - ⟨0, 0⟩)] := by
          simp only [activateHintMachine, hl]
          rfl
        rw [h3, hmap]
        norm_num [HINT_MACHINE_ACTIVATION_SCORE]
  · intro p2 es2 hw2
    rw [updatePlayerInteraction]
    split
    · simp
    · exact interactionLoop_no_hint_globe_tutorial p2 es2 hw2 es2 false

/-- Witness for claim C9: a single hint machine in range, interact pressed,
no hint globe in the inventory. -/
theorem updatePlayerInteraction_hint_machine_without_globe_witness :
    updatePlayerInteraction
        { isDead := false, hitBox := ⟨⟨2, 2⟩, ⟨3, 3⟩⟩,
          orientedPosition := ⟨0, 0⟩, isInRegularState := true,
          hasHintGlobe := false, hasCircuitBoard := false,
          hasBlueKey := false, interactTriggered := true }
        ([] ++ ({ eid := 1, position := some ⟨3, 3⟩,
                  bbox := some ⟨⟨0, 0⟩, ⟨2, 2⟩⟩,
                  interactable := some InteractableType.HintMachine } : Ent)
              :: []) =
      ⟨[] ++ ({ eid := 1, position := some ⟨3, 3⟩ } : Ent) :: [],
       [(1, InteractableType.HintMachine)],
       (activateHintMachine ⟨3, 3⟩
          { isDead := false, hitBox := ⟨⟨2, 2⟩, ⟨3, 3⟩⟩,
            orientedPosition := ⟨0, 0⟩, isInRegularState := true,
            hasHintGlobe := false, hasCircuitBoard := false,
            hasBlueKey := false, interactTriggered := true }
          { eid := 1, position := some ⟨3, 3⟩,
            bbox := some ⟨⟨0, 0⟩, ⟨2, 2⟩⟩,
            interactable := some InteractableType.HintMachine }).2⟩ :=
  (updatePlayerInteraction_hint_machine_without_globe
    _ [] [] _ ⟨3, 3⟩ ⟨⟨0, 0⟩, ⟨2, 2⟩⟩
    rfl rfl rfl rfl rfl rfl (by decide) (by simp)).1

/-- Modelled from the spec: `givenScore`
(`game_logic/collectable_components.hpp` is absent); the score awarded by a
collectable, preferring the at-full-health value when the player is at full
health. -/
def givenScore (c : CollectableItem) (playerAtFullHealth : Bool) :
    Option Nat :=
  if playerAtFullHealth && c.mGivenScoreAtFullHealth.isSome then
    c.mGivenScoreAtFullHealth
  else c.mGivenScore

/-- The player-model state read by `updateItemCollection`. -/
structure ItemPickupCtx where
  playerAtFullHealth : Bool
  addLetterResult : LetterCollectionState
deriving DecidableEq, Repr

/-- The body of the `each` callback in
`PlayerInteractionSystem::updateItemCollection`
(`interaction_system.cpp`, lines 246-310) for an intersecting collectable:
the effects recorded before the entity is destroyed, in source order,
with the mutable `soundToPlay` resolved to the last branch that set it. -/
def collectItemEffects (ctx : ItemPickupCtx) (c : CollectableItem)
    (pos : Vec) : List Effect :=
  let maybeScore := givenScore c ctx.playerAtFullHealth
  let scoreEffs :=
    match maybeScore with
    | some score =>
        Effect.giveScore score ::
        (if c.mSpawnScoreNumbers then spawnScoreNumbers pos score else [])
    | none => []
  let sound1 : Option SoundId :=
    match maybeScore with
    | some _ => some SoundId.ItemPickup
    | none => none
  let healthEffs :=
    match c.mGivenHealth with
    | some h => [Effect.giveHealth h]
    | none => []
  let sound2 :=
    match c.mGivenHealth with
    | some _ => some SoundId.HealthPickup
    | none => sound1
  let weaponEffs :=
    match c.mGivenWeapon with
    | some w => [Effect.switchToWeapon w]
    | none => []
  let sound3 :=
    match c.mGivenWeapon with
    | some _ => some SoundId.WeaponPickup
    | none => sound2
  let itemEffs :=
    match c.mGivenItem with
    | some itemType =>
        [Effect.giveItem itemType]
        ++ (if itemType = InventoryItemType.SpecialHintGlobe then
              [Effect.showMessage MessageId.FoundSpecialHintGlobe]
            else [])
        ++ (if itemType = InventoryItemType.CloakingDevice then
              [Effect.showMessage MessageId.FoundCloak,
               Effect.rememberCloakPosition pos]
            else [])
    | none => []
  let sound4 :=
    match c.mGivenItem with
    | some itemType =>
        some (if itemType = InventoryItemType.RapidFire then
                SoundId.WeaponPickup
              else SoundId.ItemPickup)
    | none => sound3
  let tutorialEffs :=
    match c.mShownTutorialMessage with
    | some t => [Effect.showTutorialMessage t]
    | none => []
  let letterEffs :=
    match c.mGivenCollectableLetter with
    | some _ => collectLetter ctx.addLetterResult pos
    | none => []
  let soundEffs :=
    match sound4 with
    | some s => [Effect.playSound s]
    | none => []
  scoreEffs ++ healthEffs ++ weaponEffs ++ itemEffs ++ tutorialEffs
    ++ letterEffs ++ soundEffs

/-- The world-space collision box computed at the top of the
`updateItemCollection` callback (`interaction_system.cpp`, lines 249-251). -/
def worldSpaceItemBox (collisionRect : Rect) (pos : Vec) : Rect :=
  { collisionRect with
      topLeft := collisionRect.topLeft +
        ⟨pos.x, pos.y - (collisionRect.size.height - 1)⟩ }

/-- Whether the `each<CollectableItem, WorldPosition, BoundingBox>` pass
picks the entity up: it is visited (live with all three components) and its
world-space box intersects the player's hit box. -/
def pickedUp (playerBox : Rect) (e : Ent) : Bool :=
  match e.alive, e.collectable, e.position, e.bbox with
  | true, some _, some pos, some collisionRect =>
      (worldSpaceItemBox collisionRect pos).intersects playerBox
  | _, _, _, _ => false

/-- The callback effects contributed by one visited entity (empty when the
entity is not picked up). -/
def pickupEffects (ctx : ItemPickupCtx) (playerBox : Rect) (e : Ent) :
    List Effect :=
  match e.alive, e.collectable, e.position, e.bbox with
  | true, some c, some pos, some collisionRect =>
      if (worldSpaceItemBox collisionRect pos).intersects playerBox then
        collectItemEffects ctx c pos
      else []
  | _, _, _, _ => []

/-- `PlayerInteractionSystem::updateItemCollection`
(`interaction_system.cpp`, lines 235-314), one `each` pass: every
intersecting collectable runs the full callback (recorded as its effect
list) and is then destroyed via `es.destroy`, which marks it dead on the
spot. -/
def itemCollectionLoop (ctx : ItemPickupCtx) (playerBox : Rect) :
    List Ent → List Ent × List Effect
  | [] => ([], [])
  | e :: rest =>
      let r := itemCollectionLoop ctx playerBox rest
      match e.alive, e.collectable, e.position, e.bbox with
      | true, some c, some pos, some collisionRect =>
          if (worldSpaceItemBox collisionRect pos).intersects playerBox then
            ({ e with alive := false } :: r.1,
             collectItemEffects ctx c pos ++ r.2)
          else (e :: r.1, r.2)
      | _, _, _, _ => (e :: r.1, r.2)

/-- `updateItemCollection` including the dead-player guard
(`interaction_system.cpp`, lines 236-238). -/
def updateItemCollection (ctx : ItemPickupCtx) (playerDead : Bool)
    (playerBox : Rect) (es : List Ent) : List Ent × List Effect :=
  if playerDead then (es, [])
  else itemCollectionLoop ctx playerBox es

/-- Characterization of the pass: every picked-up entity is killed in
place, and the effect log is the concatenation of the per-entity callback
effects in iteration order. -/
lemma itemCollectionLoop_eq (ctx : ItemPickupCtx) (playerBox : Rect) :
    ∀ es : List Ent,
      itemCollectionLoop ctx playerBox es =
        (es.map fun e =>
           if pickedUp playerBox e then { e with alive := false } else e,
         es.flatMap (pickupEffects ctx playerBox)) := by
  intro es
  induction es with
  | nil => rfl
  | cons e rest ih =>
      simp only [itemCollectionLoop, ih, List.map_cons, List.flatMap_cons]
      cases ha : e.alive with
      | false =>
          simp [pickedUp, pickupEffects, ha]
      | true =>
          cases hc : e.collectable with
          | none => simp [pickedUp, pickupEffects, ha, hc]
          | some c =>
              cases hp : e.position with
              | none => simp [pickedUp, pickupEffects, ha, hc, hp]
              | some pos =>
                  cases hb : e.bbox with
                  | none => simp [pickedUp, pickupEffects, ha, hc, hp, hb]
                  | some collisionRect =>
                      by_cases hi :
                        (worldSpaceItemBox collisionRect pos).intersects
                          playerBox = true
                      · simp [pickedUp, pickupEffects, ha, hc, hp, hb, hi]
                      · simp only [Bool.not_eq_true] at hi
                        simp [pickedUp, pickupEffects, ha, hc, hp, hb, hi]

lemma find?_eid_of_nodup (es : List Ent) (e : Ent)
    (hmem : e ∈ es) (hnd : (es.map (fun x => x.eid)).Nodup) :
    es.find? (fun x => x.eid = e.eid) = some e := by
  induction es with
  | nil => cases hmem
  | cons a rest ih =>
      rcases List.mem_cons.mp hmem with h | h
      · subst h
        simp [List.find?]
      · have hne : a.eid ≠ e.eid := by
          intro hEq
          have : e.eid ∈ rest.map (fun x => x.eid) :=
            List.mem_map.mpr ⟨e, h, rfl⟩
          rw [List.map_cons, List.nodup_cons] at hnd
          exact hnd.1 (hEq ▸ this)
        have hnd' : (rest.map (fun x => x.eid)).Nodup := by
          rw [List.map_cons, List.nodup_cons] at hnd
          exact hnd.2
        simp [List.find?, hne, ih h hnd']

/-- Claim C3: when `updateItemCollection` destroys an entity from within
its own `each` callback, the callback still completes — the effect log is
exactly the concatenation of every picked-up entity's full callback
effects — while the destroyed entity is excluded, from that instant, from
every subsequent `each`-style traversal in the tick (in particular the
phase-2 physics traversal of live entities), and a stale-handle
`has<CollectableItem>` lookup on it returns false instead of faulting. -/
theorem updateItemCollection_destroy_mid_callback
    (ctx : ItemPickupCtx) (playerBox : Rect) (es : List Ent) (e : Ent)
    (hmem : e ∈ es) (hpicked : pickedUp playerBox e = true)
    (hnd : (es.map (fun x => x.eid)).Nodup) :
    (updateItemCollection ctx false playerBox es).2 =
      es.flatMap (pickupEffects ctx playerBox) ∧
    (∀ x ∈ (updateItemCollection ctx false playerBox es).1,
      x.eid = e.eid → x.alive = false) ∧
    e.eid ∉
      (eachLive (updateItemCollection ctx false playerBox es).1).map
        (fun x => x.eid) ∧
    hasCollectable (updateItemCollection ctx false playerBox es).1 e.eid =
      false := by
  have hloop := itemCollectionLoop_eq ctx playerBox es
  have hupd : updateItemCollection ctx false playerBox es =
      itemCollectionLoop ctx playerBox es := by
    simp [updateItemCollection]
  have hdead : ∀ x ∈ (updateItemCollection ctx false playerBox es).1,
      x.eid = e.eid → x.alive = false := by
    intro x hx hEq
    rw [hupd, hloop] at hx
    obtain ⟨y, hy, hyx⟩ := List.mem_map.mp hx
    by_cases hpy : pickedUp playerBox y = true
    · rw [if_pos hpy] at hyx
      rw [← hyx]
    · rw [if_neg hpy] at hyx
      subst hyx
      have hyEq : y = e := by
        have h1 : y.eid ∈ es.map (fun x => x.eid) :=
          List.mem_map.mpr ⟨y, hy, rfl⟩
        have := List.inj_on_of_nodup_map hnd hy hmem hEq
        exact this
      rw [hyEq] at hpy
      exact absurd hpicked hpy
  refine ⟨?_, hdead, ?_, ?_⟩
  · rw [hupd, hloop]
  · intro hin
    obtain ⟨x, hx, hxe⟩ := List.mem_map.mp hin
    have hxl : x ∈ (updateItemCollection ctx false playerBox es).1 ∧
        x.alive = true := by
      have := List.mem_filter.mp hx
      exact ⟨this.1, by simpa using this.2⟩
    have := hdead x hxl.1 hxe
    rw [this] at hxl
    exact Bool.false_ne_true hxl.2
  · rw [hasCollectable]
    cases hf : (updateItemCollection ctx false playerBox es).1.find?
        (fun x => x.eid = e.eid) with
    | none => rfl
    | some x =>
        have hx := List.find?_some hf
        have hxmem := List.mem_of_find?_eq_some hf
        have : x.alive = false := hdead x hxmem (by simpa using hx)
        simp [this]

/-- Witness for claim C3: one collectable item overlapping the player is
destroyed by the pass; the pass reports its effects and the stale handle
reads false. -/
theorem updateItemCollection_destroy_mid_callback_witness :
    pickedUp ⟨⟨2, 2⟩, ⟨3, 3⟩⟩
      { eid := 7, position := some ⟨3, 3⟩, bbox := some ⟨⟨0, 0⟩, ⟨2, 2⟩⟩,
        collectable := some { mGivenScore := some 500 } } = true ∧
    hasCollectable
      (updateItemCollection ⟨false, LetterCollectionState.Incomplete⟩ false
        ⟨⟨2, 2⟩, ⟨3, 3⟩⟩
        [{ eid := 7, position := some ⟨3, 3⟩, bbox := some ⟨⟨0, 0⟩, ⟨2, 2⟩⟩,
           collectable := some { mGivenScore := some 500 } }]).1 7 = false :=
  ⟨by decide,
   (updateItemCollection_destroy_mid_callback
      ⟨false, LetterCollectionState.Incomplete⟩ ⟨⟨2, 2⟩, ⟨3, 3⟩⟩
      [{ eid := 7, position := some ⟨3, 3⟩, bbox := some ⟨⟨0, 0⟩, ⟨2, 2⟩⟩,
         collectable := some { mGivenScore := some 500 } }]
      { eid := 7, position := some ⟨3, 3⟩, bbox := some ⟨⟨0, 0⟩, ⟨2, 2⟩⟩,
        collectable := some { mGivenScore := some 500 } }
      (by simp) (by decide) (by simp)).2.2.2⟩

/-- Modelled from the spec: the tile map query surface (§6); per-tile
solidity over a `[0, width) x [0, height)` grid, with out-of-range queries
returning the safe "solid" default. -/
structure TileMap where
  width : Int
  height : Int
  solids : List Vec
deriving DecidableEq, Repr

/-- Modelled from the spec: `tileAttributes(...).solid` with the safe
out-of-range default (§6). -/
def isSolid (m : TileMap) (p : Vec) : Bool :=
  if p.x < 0 || p.y < 0 || m.width ≤ p.x || m.height ≤ p.y then true
  else decide (p ∈ m.solids)

/-- Modelled from the spec: whether a world-space box overlaps any solid
tile (the elementary query behind the collision checker, §4.2). -/
def boxOverlapsSolid (m : TileMap) (worldBox : Rect) : Bool :=
  (List.range worldBox.size.width).any fun dx =>
    (List.range worldBox.size.height).any fun dy =>
      isSolid m ⟨worldBox.topLeft.x + dx, worldBox.topLeft.y + dy⟩

/-- Whether the box of an entity at `pos` overlaps a solid tile. -/
def overlapsAt (m : TileMap) (box : Rect) (pos : Vec) : Bool :=
  boxOverlapsSolid m (toWorldSpace box pos)

/-- Modelled from the spec: one axis of `sweepMove` (§4.2); the box is
advanced one tile at a time along `unitStep` for up to `steps` tiles,
stopping — and reporting a blocked axis — just before the first position
whose box would overlap a solid tile.  Tile-by-tile stepping is what rules
out tunneling through thin obstacles. -/
def moveAxisSteps (m : TileMap) (box : Rect) (unitStep : Vec) :
    Nat → Vec → Vec × Bool
  | 0, pos => (pos, false)
  | steps + 1, pos =>
      let next := pos + unitStep
      if overlapsAt m box next then (pos, true)
      else moveAxisSteps m box unitStep steps next

/-- Modelled from the spec: `sweepMove(position, box, delta)` (§4.2);
computes the maximal sub-movement along each axis independently, first X
then Y, and reports which sides were blocked.  Returns the final position
(the clamped delta is `result - position`). -/
def sweepMove (m : TileMap) (box : Rect) (pos : Vec) (delta : Vec) :
    Vec × CollisionFlags :=
  let stepX : Vec := ⟨if delta.x > 0 then 1 else -1, 0⟩
  let rx := moveAxisSteps m box stepX delta.x.natAbs pos
  let stepY : Vec := ⟨0, if delta.y > 0 then 1 else -1⟩
  let ry := moveAxisSteps m box stepY delta.y.natAbs rx.1
  (ry.1,
   { collidedLeft := rx.2 && decide (delta.x < 0),
     collidedRight := rx.2 && decide (delta.x > 0),
     collidedTop := ry.2 && decide (delta.y < 0),
     collidedBottom := ry.2 && decide (delta.y > 0) })

lemma moveAxisSteps_safe (m : TileMap) (box : Rect) (unitStep : Vec) :
    ∀ (steps : Nat) (pos : Vec), overlapsAt m box pos = false →
      overlapsAt m box (moveAxisSteps m box unitStep steps pos).1 = false := by
  intro steps
  induction steps with
  | zero => intro pos h; exact h
  | succ n ih =>
      intro pos h
      rw [moveAxisSteps]
      by_cases hov : overlapsAt m box (pos + unitStep) = true
      · simp only [hov, if_true]
        exact h
      · simp only [Bool.not_eq_true] at hov
        simp only [hov, Bool.false_eq_true, if_false]
        exact ih (pos + unitStep) hov

/-- Claim C4: for every map, box, starting position and requested delta —
including deltas larger than one tile — the position reached through
`sweepMove`'s clamped delta never overlaps a solid tile, provided the
starting position did not; the movement is checked tile-by-tile along the
path, so a box cannot tunnel through a thin solid obstacle. -/
theorem sweepMove_never_overlaps (m : TileMap) (box : Rect)
    (pos delta : Vec) (h : overlapsAt m box pos = false) :
    overlapsAt m box (sweepMove m box pos delta).1 = false := by
  rw [sweepMove]
  exact moveAxisSteps_safe m box _ _ _
    (moveAxisSteps_safe m box _ _ _ h)

/-- Witness for claim C4: a 10x10 map with a solid column at x = 5; a
2x2 box starting at (2, 8) asked to move 6 tiles to the right is stopped
before the wall and ends free of overlap. -/
theorem sweepMove_never_overlaps_witness :
    overlapsAt
      ⟨10, 10, [⟨5, 6⟩, ⟨5, 7⟩, ⟨5, 8⟩, ⟨5, 9⟩]⟩
      ⟨⟨0, 0⟩, ⟨2, 2⟩⟩ ⟨2, 8⟩ = false ∧
    overlapsAt
      ⟨10, 10, [⟨5, 6⟩, ⟨5, 7⟩, ⟨5, 8⟩, ⟨5, 9⟩]⟩
      ⟨⟨0, 0⟩, ⟨2, 2⟩⟩
      (sweepMove
        ⟨10, 10, [⟨5, 6⟩, ⟨5, 7⟩, ⟨5, 8⟩, ⟨5, 9⟩]⟩
        ⟨⟨0, 0⟩, ⟨2, 2⟩⟩ ⟨2, 8⟩ ⟨6, 0⟩).1 = false :=
  ⟨by decide,
   sweepMove_never_overlaps
     ⟨10, 10, [⟨5, 6⟩, ⟨5, 7⟩, ⟨5, 8⟩, ⟨5, 9⟩]⟩
     ⟨⟨0, 0⟩, ⟨2, 2⟩⟩ ⟨2, 8⟩ ⟨6, 0⟩ (by decide)⟩

/-- Modelled from the spec: the fixed per-tick gravity increment (§4.3);
the numeric value is not claim-relevant. -/
def GRAVITY_INCREMENT : Int := 1

/-- Modelled from the spec: the terminal fall velocity cap (§4.3). -/
def TERMINAL_VELOCITY : Int := 2

/-- Modelled from the spec: gravity integration (§4.3) — add the fixed
increment to vertical velocity, capped at terminal velocity. -/
def applyGravity (v : Vec) : Vec :=
  ⟨v.x, min (v.y + GRAVITY_INCREMENT) TERMINAL_VELOCITY⟩

/-- Modelled from the spec: the per-entity integration step of the physics
system (§4.3, `engine/physics_system.cpp` is absent from the snapshot).
If a `MovementSequence` is present its next delta is consumed and applied
unconditionally — no collision check, no velocity integration — advancing
the playback (restarting it when it loops, removing the component when
exhausted).  Only without a sequence is gravity integrated into the
velocity and the movement routed through `sweepMove`, zeroing blocked
velocity axes and emitting `CollidedWithWorld` for entities that do not
ignore collisions. -/
def updateMovingBody (m : TileMap) (e : Ent) : Ent × List GameEvent :=
  match e.movingBody, e.position, e.bbox with
  | some body, some pos, some box =>
      match e.sequence with
      | some seq =>
          match seq.deltas with
          | [] => ({ e with sequence := none }, [])
          | d :: rest =>
              let newSeq : Option MovementSequence :=
                if rest.isEmpty then
                  if seq.repeats then
                    some { seq with deltas := seq.initial }
                  else none
                else some { seq with deltas := rest }
              ({ e with position := some (pos + d), sequence := newSeq }, [])
      | none =>
          let v := if body.gravityAffected then applyGravity body.velocity
                   else body.velocity
          let moved := sweepMove m box pos v
          let flags := moved.2
          let anyCollision := flags.collidedLeft || flags.collidedRight ||
            flags.collidedTop || flags.collidedBottom
          if anyCollision && !body.ignoresCollisions then
            ({ e with
                position := some moved.1,
                movingBody := some
                  { body with
                      velocity :=
                        ⟨if flags.collidedLeft || flags.collidedRight then 0
                          else v.x,
                         if flags.collidedTop || flags.collidedBottom then 0
                          else v.y⟩ } },
             [GameEvent.CollidedWithWorld e.eid flags])
          else
            ({ e with
                position := some moved.1,
                movingBody := some { body with velocity := v } }, [])
  | _, _, _ => (e, [])

/-- `JUMP_ARC` (`spike_ball.cpp`, lines 34-40), the scripted jump deltas of
the spike ball. -/
def JUMP_ARC : List Vec :=
  [⟨0, -2⟩, ⟨0, -2⟩, ⟨0, -1⟩, ⟨0, -1⟩, ⟨0, -1⟩]

/-- `startJump` (`spike_ball.cpp`, lines 43-45): (re)assign the jump-arc
movement sequence. -/
def startJump (e : Ent) : Ent :=
  { e with sequence := some (mkMovementSequence JUMP_ARC false) }

/-- `configureSpikeBall` (`spike_ball.cpp`, lines 50-59): a gravity-affected
moving body with zero velocity, the spike-ball state and a freshly started
jump sequence. -/
def configureSpikeBall (eid : Nat) (pos : Vec) (box : Rect) : Ent :=
  startJump
    { eid := eid, alive := true, active := true, position := some pos,
      bbox := some box,
      movingBody := some { velocity := ⟨0, 0⟩, gravityAffected := true },
      spikeBall := some {} }

/-- Claim C5: for an active entity carrying both a `MovingBody` and a
`MovementSequence` with a pending delta (the spike ball during its scripted
jump arc), the tick's position delta is exactly the sequence's next delta,
applied without any collision check or event; the body — velocity and
gravity flag included — is left untouched, and the resulting position is
the same for every velocity value, so velocity contributes nothing while
the sequence is in control. -/
theorem movementSequence_overrides_velocity (m : TileMap) (e : Ent)
    (body : MovingBody) (pos : Vec) (box : Rect) (seq : MovementSequence)
    (d : Vec) (rest : List Vec)
    (hb : e.movingBody = some body) (hp : e.position = some pos)
    (hx : e.bbox = some box) (hs : e.sequence = some seq)
    (hd : seq.deltas = d :: rest) :
    (updateMovingBody m e).1.position = some (pos + d) ∧
    (updateMovingBody m e).1.movingBody = some body ∧
    (updateMovingBody m e).2 = [] ∧
    (∀ v : Vec,
      (updateMovingBody m
        { e with movingBody := some { body with velocity := v } }).1.position =
        some (pos + d)) := by
  refine ⟨?_, ?_, ?_, ?_⟩
  · simp only [updateMovingBody, hb, hp, hx, hs, hd]
  · simp only [updateMovingBody, hb, hp, hx, hs, hd]
  · simp only [updateMovingBody, hb, hp, hx, hs, hd]
  · intro v
    simp only [updateMovingBody, hp, hx, hs, hd]

/-- Witness for claim C5: the freshly configured spike ball; its first tick
moves it up by two tiles regardless of gravity and velocity. -/
theorem movementSequence_overrides_velocity_witness :
    (updateMovingBody ⟨10, 10, []⟩
      (configureSpikeBall 3 ⟨4, 6⟩ ⟨⟨0, 0⟩, ⟨2, 2⟩⟩)).1.position =
        some (⟨4, 6⟩ + ⟨0, -2⟩) ∧
    (updateMovingBody ⟨10, 10, []⟩
      (configureSpikeBall 3 ⟨4, 6⟩ ⟨⟨0, 0⟩, ⟨2, 2⟩⟩)).2 = [] :=
  ⟨(movementSequence_overrides_velocity ⟨10, 10, []⟩
      (configureSpikeBall 3 ⟨4, 6⟩ ⟨⟨0, 0⟩, ⟨2, 2⟩⟩)
      { velocity := ⟨0, 0⟩, gravityAffected := true } ⟨4, 6⟩
      ⟨⟨0, 0⟩, ⟨2, 2⟩⟩ (mkMovementSequence JUMP_ARC false)
      ⟨0, -2⟩ [⟨0, -2⟩, ⟨0, -1⟩, ⟨0, -1⟩, ⟨0, -1⟩]
      rfl rfl rfl rfl rfl).1,
   (movementSequence_overrides_velocity ⟨10, 10, []⟩
      (configureSpikeBall 3 ⟨4, 6⟩ ⟨⟨0, 0⟩, ⟨2, 2⟩⟩)
      { velocity := ⟨0, 0⟩, gravityAffected := true } ⟨4, 6⟩
      ⟨⟨0, 0⟩, ⟨2, 2⟩⟩ (mkMovementSequence JUMP_ARC false)
      ⟨0, -2⟩ [⟨0, -2⟩, ⟨0, -1⟩, ⟨0, -1⟩, ⟨0, -1⟩]
      rfl rfl rfl rfl rfl).2.2.1⟩

/-- `engine::MovementResult` (`engine/movement.hpp`, absent from the
snapshot; referenced by `rigelatin_soldier.hpp`). -/
inductive MovementResult
  | Completed
  | MovedPartially
  | Failed
deriving DecidableEq, Repr

/-- `rigelatin_soldier::Jumping` (`rigelatin_soldier.hpp`, lines 35-40). -/
structure JumpingData where
  mFramesElapsed : Int := 0
  mLastHorizontalMovementResult : MovementResult := MovementResult.Failed
  mPreviousPosX : Int := 0
deriving DecidableEq, Repr

/-- `rigelatin_soldier::State` (`rigelatin_soldier.hpp`, lines 33-47): the
tagged variant `{Ready, Jumping, Waiting}`. -/
inductive RigelatinState
  | Ready
  | Jumping (data : JumpingData)
  | Waiting (mFramesElapsed : Int)
deriving DecidableEq, Repr

/-- `behaviors::RigelatinSoldier` (`rigelatin_soldier.hpp`, lines 54-74):
the stored state variant, initially `Ready`, and the decision counter,
initialized to 3. -/
structure RigelatinSoldier where
  mState : RigelatinState := RigelatinState.Ready
  mDecisionCounter : Int := 3
deriving DecidableEq, Repr

/-- Modelled from the spec: `RigelatinSoldier::updateReadyState`
(`rigelatin_soldier.cpp` is absent from the snapshot); `Ready` counts the
decision counter down one per update, ignoring input, and on expiry the
update function directly replaces the stored variant with `Jumping`
(§4.4). -/
def updateReadyState (b : RigelatinSoldier) : RigelatinSoldier :=
  let counter := b.mDecisionCounter - 1
  if counter ≤ 0 then
    { mState := RigelatinState.Jumping {}, mDecisionCounter := 0 }
  else { b with mDecisionCounter := counter }

/-- Modelled from the spec: `RigelatinSoldier::update` dispatching on the
stored variant (§4.4); only the `Ready` countdown is claim-relevant, the
other variants track their elapsed frames. -/
def rigelatinUpdate (b : RigelatinSoldier) : RigelatinSoldier :=
  match b.mState with
  | RigelatinState.Ready => updateReadyState b
  | RigelatinState.Jumping jd =>
      { b with
          mState := RigelatinState.Jumping
            ({ jd with mFramesElapsed := jd.mFramesElapsed + 1 }) }
  | RigelatinState.Waiting n =>
      { b with mState := RigelatinState.Waiting (n + 1) }

/-- Modelled from the spec: the landing-collision handler
(`RigelatinSoldier::onCollision`, §4.4) — a landing while `Jumping` puts
the behavior back into `Ready` with a fresh countdown; in any other state
the handler does nothing.  Called synchronously after the update of the
same tick, it observes the state the update left behind. -/
def rigelatinOnLanding (b : RigelatinSoldier) : RigelatinSoldier :=
  match b.mState with
  | RigelatinState.Jumping _ =>
      { mState := RigelatinState.Ready, mDecisionCounter := 3 }
  | _ => b

/-- Claim C6: a `RigelatinSoldier` freshly in `Ready` with its 3-tick
countdown replaces its stored variant with `Jumping` on exactly the third
update call — still `Ready` after one and after two updates — and the
replacement is synchronous: a landing-collision handler invoked later in
the same tick already observes `Jumping` (and resets the behavior), while
the same handler invoked before the third update observes `Ready` and does
nothing. -/
theorem rigelatinSoldier_jumps_on_exactly_third_update :
    (rigelatinUpdate {}).mState = RigelatinState.Ready ∧
    (rigelatinUpdate (rigelatinUpdate {})).mState = RigelatinState.Ready ∧
    (rigelatinUpdate (rigelatinUpdate (rigelatinUpdate {}))).mState =
      RigelatinState.Jumping {} ∧
    rigelatinOnLanding (rigelatinUpdate (rigelatinUpdate
        (rigelatinUpdate {}))) =
      { mState := RigelatinState.Ready, mDecisionCounter := 3 } ∧
    rigelatinOnLanding (rigelatinUpdate (rigelatinUpdate {})) =
      rigelatinUpdate (rigelatinUpdate {}) := by
  decide

/-- The system-update calls of `IngameSystems::update`
(`ingame_systems.cpp`, lines 175-239), one constructor per call site. -/
inductive Phase
  | updateAnimatedMapTiles
  | updateAnimatedSprites
  | animateForceFields
  | updatePlayerInteraction
  | playerUpdate
  | cameraUpdate
  | markActiveEntities
  | elevatorSystem
  | radarComputerSystem
  | blueGuardSystem
  | hoverBotSystem
  | laserTurretSystem
  | messengerDroneSystem
  | prisonerSystem
  | rocketTurretSystem
  | simpleWalkerSystem
  | slidingDoorSystem
  | slimeBlobSystem
  | spiderSystem
  | spikeBallSystem
  | behaviorControllerSystem
  | physicsPhase1
  | updateItemCollection
  | playerDamageSystem
  | damageInflictionSystem
  | itemContainerSystem
  | playerProjectileSystem
  | effectsSystem
  | lifeTimeSystem
  | physicsPhase2
  | particlesUpdate
deriving DecidableEq, Repr

/-- The call order of `IngameSystems::update` (`ingame_systems.cpp`, lines
175-239).  The body is straight-line code: this constant list is the order
for every tick, whatever the entity count or content. -/
def ingameUpdateSequence : List Phase :=
  [Phase.updateAnimatedMapTiles,
   Phase.updateAnimatedSprites,
   Phase.animateForceFields,
   Phase.updatePlayerInteraction,
   Phase.playerUpdate,
   Phase.cameraUpdate,
   Phase.markActiveEntities,
   Phase.elevatorSystem,
   Phase.radarComputerSystem,
   Phase.blueGuardSystem,
   Phase.hoverBotSystem,
   Phase.laserTurretSystem,
   Phase.messengerDroneSystem,
   Phase.prisonerSystem,
   Phase.rocketTurretSystem,
   Phase.simpleWalkerSystem,
   Phase.slidingDoorSystem,
   Phase.slimeBlobSystem,
   Phase.spiderSystem,
   Phase.spikeBallSystem,
   Phase.behaviorControllerSystem,
   Phase.physicsPhase1,
   Phase.updateItemCollection,
   Phase.playerDamageSystem,
   Phase.damageInflictionSystem,
   Phase.itemContainerSystem,
   Phase.playerProjectileSystem,
   Phase.effectsSystem,
   Phase.lifeTimeSystem,
   Phase.physicsPhase2,
   Phase.particlesUpdate]

/-- The AI/behavior system updates of the tick (`ingame_systems.cpp`,
lines 204-215). -/
def aiSystems : List Phase :=
  [Phase.blueGuardSystem,
   Phase.hoverBotSystem,
   Phase.laserTurretSystem,
   Phase.messengerDroneSystem,
   Phase.prisonerSystem,
   Phase.rocketTurretSystem,
   Phase.simpleWalkerSystem,
   Phase.slidingDoorSystem,
   Phase.slimeBlobSystem,
   Phase.spiderSystem,
   Phase.spikeBallSystem,
   Phase.behaviorControllerSystem]

/-- The reactive systems that run between the two physics phases
(`ingame_systems.cpp`, lines 224-233). -/
def reactiveSystems : List Phase :=
  [Phase.updateItemCollection,
   Phase.playerDamageSystem,
   Phase.damageInflictionSystem,
   Phase.itemContainerSystem,
   Phase.playerProjectileSystem,
   Phase.effectsSystem,
   Phase.lifeTimeSystem]

/-- Claim C2: the tick's phases run in a fixed order (each call site
appears exactly once in the constant call sequence): activation
(`markActiveEntities`) precedes every AI/behavior system update, every
AI/behavior update precedes physics phase 1, and every reactive system
(item collection, player damage, damage infliction, item containers,
projectiles, effects, lifetime) runs strictly after phase 1 and strictly
before phase 2 — so an entity spawned by a reactive system makes its first
movement in phase 2, never in the already-past phase 1. -/
theorem ingameUpdate_fixed_phase_order :
    ingameUpdateSequence.Nodup ∧
    (aiSystems.all fun s =>
      decide (ingameUpdateSequence.indexOf Phase.markActiveEntities <
        ingameUpdateSequence.indexOf s) &&
      decide (ingameUpdateSequence.indexOf s <
        ingameUpdateSequence.indexOf Phase.physicsPhase1)) = true ∧
    (reactiveSystems.all fun s =>
      decide (ingameUpdateSequence.indexOf Phase.physicsPhase1 <
        ingameUpdateSequence.indexOf s) &&
      decide (ingameUpdateSequence.indexOf s <
        ingameUpdateSequence.indexOf Phase.physicsPhase2)) = true := by
  decide

/-- The per-tick player input (`PlayerInput`, `game_logic/input.hpp`);
only the interact trigger reaches the embedded systems. -/
structure PlayerInput where
  interactTriggered : Bool
  moveLeft : Bool := false
  moveRight : Bool := false
  jumpTriggered : Bool := false
  fireTriggered : Bool := false
deriving DecidableEq, Repr

/-- Modelled from the spec: the margin by which the simulated region
extends past the camera view (§4.5). -/
def ACTIVATION_MARGIN : Int := 2

/-- Modelled from the spec: the camera viewport in tiles (§4.5). -/
def VIEWPORT_SIZE : Size := ⟨32, 20⟩

/-- Modelled from the spec: `engine::markActiveEntities` (§4.5,
`engine/base_components.hpp`/`entity_activation.cpp` are absent): an
entity with a position gains `Active` exactly when its box intersects the
camera-centered simulated region; the on-screen flag records intersection
with the unexpanded viewport. -/
def markActiveEntities (cameraPosition : Vec) (es : List Ent) : List Ent :=
  let simulatedRegion : Rect :=
    ⟨cameraPosition - ⟨ACTIVATION_MARGIN, ACTIVATION_MARGIN⟩,
     ⟨VIEWPORT_SIZE.width + 2 * ACTIVATION_MARGIN.toNat,
      VIEWPORT_SIZE.height + 2 * ACTIVATION_MARGIN.toNat⟩⟩
  let viewport : Rect := ⟨cameraPosition, VIEWPORT_SIZE⟩
  es.map fun e =>
    match e.position with
    | some pos =>
        let box := (e.bbox.getD ⟨⟨0, 0⟩, ⟨1, 1⟩⟩)
        let worldBox := toWorldSpace box pos
        if worldBox.intersects simulatedRegion then
          { e with active := true,
                   activeIsOnScreen := worldBox.intersects viewport }
        else { e with active := false, activeIsOnScreen := false }
    | none => e

/-- Modelled from the spec: `CollisionChecker::isOnSolidGround` (§4.2);
the tile row directly below the box's bottom edge is solid across the
box's width. -/
def isOnSolidGround (m : TileMap) (worldBox : Rect) : Bool :=
  (List.range worldBox.size.width).all fun dx =>
    isSolid m ⟨worldBox.topLeft.x + dx, worldBox.bottom + 1⟩

/-- The per-entity body of `SpikeBallSystem::update` (`spike_ball.cpp`,
lines 75-93) together with `SpikeBallSystem::jump` (lines 133-145): tick
the jump-back cooldown down, and start a new jump when the cooldown has
expired while resting on solid ground. -/
def spikeBallUpdateEntity (m : TileMap) (e : Ent) : Ent × List Effect :=
  match e.spikeBall, e.position, e.bbox, e.active with
  | some state, some pos, some bounds, true =>
      let state1 : SpikeBallComp :=
        if state.mJumpBackCooldown > 0 then
          { state with mJumpBackCooldown := state.mJumpBackCooldown - 1 }
        else state
      let onSolidGround := isOnSolidGround m (toWorldSpace bounds pos)
      if state1.mJumpBackCooldown = 0 && onSolidGround then
        (startJump { e with spikeBall := some ⟨9⟩ },
         if e.activeIsOnScreen then [Effect.playSound SoundId.DukeJumping]
         else [])
      else ({ e with spikeBall := some state1 }, [])
  | _, _, _, _ => (e, [])

/-- `SpikeBallSystem::update` (`spike_ball.cpp`, lines 75-93) over the
store: the `each<SpikeBall, WorldPosition, BoundingBox, Active>` pass. -/
def spikeBallSystemUpdate (m : TileMap) (es : List Ent) :
    List Ent × List Effect :=
  es.foldr
    (fun e acc =>
      if e.alive then
        let r := spikeBallUpdateEntity m e
        (r.1 :: acc.1, r.2 ++ acc.2)
      else (e :: acc.1, acc.2))
    ([], [])

/-- `SpikeBallSystem::receive(CollidedWithWorld)` (`spike_ball.cpp`, lines
107-130) for a single event, applied to the store: bounce the horizontal
velocity off walls; a top collision cancels the jump (cooldown 3, sequence
removed, vertical velocity zeroed). -/
def spikeBallHandleCollision (ev : GameEvent) (es : List Ent) :
    List Ent × List Effect :=
  match ev with
  | GameEvent.CollidedWithWorld eid flags =>
      (es.map fun e =>
        if e.eid = eid && e.alive && e.spikeBall.isSome then
          match e.movingBody with
          | some body =>
              let body1 :=
                if flags.collidedLeft then
                  { body with velocity := ⟨1, body.velocity.y⟩ }
                else if flags.collidedRight then
                  { body with velocity := ⟨-1, body.velocity.y⟩ }
                else body
              if flags.collidedTop then
                { e with
                    spikeBall := some ⟨3⟩,
                    sequence := none,
                    movingBody := some
                      { body1 with velocity := ⟨body1.velocity.x, 0⟩ } }
              else { e with movingBody := some body1 }
          | none => e
        else e,
       es.foldr
         (fun e acc =>
           if e.eid = eid && e.alive && e.spikeBall.isSome &&
               flags.collidedTop && e.activeIsOnScreen then
             Effect.playSound SoundId.DukeJumping :: acc
           else acc)
         [])
  | _ => (es, [])

/-- Draining the phase-1 collision events through the spike-ball
subscriber before phase 2 begins (§4.3 ordering guarantee). -/
def drainCollisionEvents (events : List GameEvent) (es : List Ent) :
    List Ent × List Effect :=
  events.foldl
    (fun acc ev =>
      let r := spikeBallHandleCollision ev acc.1
      (r.1, acc.2 ++ r.2))
    (es, [])

/-- A physics pass (§4.3): integrate every live, active moving body;
`onlyLate` restricts the pass to entities spawned after phase 1 (the
phase-2 generation marker). -/
def physicsPass (m : TileMap) (onlyLate : Bool) (es : List Ent) :
    List Ent × List GameEvent :=
  es.foldr
    (fun e acc =>
      if e.alive && e.active && (!onlyLate || e.spawnedAfterPhase1) then
        let r := updateMovingBody m e
        (r.1 :: acc.1, r.2 ++ acc.2)
      else (e :: acc.1, acc.2))
    ([], [])

/-- The full simulation state threaded through one tick: the entity store,
the read-only tile map, the player/model state read by the embedded
systems, the camera, and the RNG seed/cursor (§5). -/
structure GameState where
  entities : List Ent
  tileMap : TileMap
  playerCtx : PlayerCtx
  itemCtx : ItemPickupCtx
  cameraPosition : Vec
  randomSeed : Nat
  randomCursor : Nat
  effectLog : List Effect
  eventLog : List GameEvent
deriving DecidableEq, Repr

/-- One tick of the embedded systems, in the call order of
`IngameSystems::update` (`ingame_systems.cpp`, lines 175-239): player
interaction, activation, AI (spike ball), physics phase 1, draining of the
phase-1 collision events, item collection, physics phase 2 restricted to
the phase-2 generation, and the end-of-tick destruction sweep (§5). -/
def tick (input : PlayerInput) (s : GameState) : GameState :=
  let pctx := { s.playerCtx with interactTriggered := input.interactTriggered }
  let r1 := updatePlayerInteraction pctx s.entities
  let es2 := markActiveEntities s.cameraPosition r1.entities
  let r3 := spikeBallSystemUpdate s.tileMap es2
  let r4 := physicsPass s.tileMap false r3.1
  let r5 := drainCollisionEvents r4.2 r4.1
  let r6 := updateItemCollection s.itemCtx pctx.isDead pctx.hitBox r5.1
  let r7 := physicsPass s.tileMap true r6.1
  { s with
      entities := r7.1.filter (fun e => e.alive),
      effectLog := s.effectLog ++ r1.effects ++ r3.2 ++ r5.2 ++ r6.2,
      eventLog := s.eventLog ++ r4.2 ++ r7.2 }

/-- Claim C7: the tick is deterministic — two runs of the embedded
`IngameSystems::update` started from equal entity/component state, equal
RNG seed and cursor, and equal player input produce equal states.  The
force of the statement is that `tick` is a pure function of the state and
input alone: every traversal is in creation order and the phase order is
the fixed sequence of `ingameUpdateSequence`. -/
theorem tick_deterministic (s1 s2 : GameState) (i1 i2 : PlayerInput)
    (hs : s1 = s2) (hi : i1 = i2) : tick i1 s1 = tick i2 s2 := by
  subst hs
  subst hi
  rfl

/-- Witness for claim C7: two runs on a concrete one-entity state. -/
theorem tick_deterministic_witness :
    tick ⟨true, false, false, false, false⟩
      ⟨[{ eid := 1, position := some ⟨3, 3⟩,
          bbox := some ⟨⟨0, 0⟩, ⟨2, 2⟩⟩,
          movingBody := some { velocity := ⟨0, 0⟩, gravityAffected := true } }],
       ⟨10, 10, [⟨3, 6⟩]⟩,
       { isDead := false, hitBox := ⟨⟨2, 2⟩, ⟨3, 3⟩⟩,
         orientedPosition := ⟨0, 0⟩, isInRegularState := true,
         hasHintGlobe := false, hasCircuitBoard := false,
         hasBlueKey := false, interactTriggered := false },
       ⟨false, LetterCollectionState.Incomplete⟩,
       ⟨0, 0⟩, 42, 7, [], []⟩ =
    tick ⟨true, false, false, false, false⟩
      ⟨[{ eid := 1, position := some ⟨3, 3⟩,
          bbox := some ⟨⟨0, 0⟩, ⟨2, 2⟩⟩,
          movingBody := some { velocity := ⟨0, 0⟩, gravityAffected := true } }],
       ⟨10, 10, [⟨3, 6⟩]⟩,
       { isDead := false, hitBox := ⟨⟨2, 2⟩, ⟨3, 3⟩⟩,
         orientedPosition := ⟨0, 0⟩, isInRegularState := true,
         hasHintGlobe := false, hasCircuitBoard := false,
         hasBlueKey := false, interactTriggered := false },
       ⟨false, LetterCollectionState.Incomplete⟩,
       ⟨0, 0⟩, 42, 7, [], []⟩ :=
  tick_deterministic _ _ _ _ rfl rfl

end Rigel
